import Mathlib

/-!
Shallow embedding of the talkity chat server core (src/server.py): the
in-memory connection registry, the websocket endpoint's join / command /
chat / disconnect handling, and the fan-out logic, together with proofs
of the specified properties.
-/

set_option maxHeartbeats 1000000
set_option linter.unnecessarySimpa false

namespace Talkity

/-! ### Python string primitives, modelled on character lists -/

/-- Whitespace characters stripped by Python str.strip (ASCII range). -/
def isPySpace (c : Char) : Bool :=
  c = ' ' || c = '\t' || c = '\n' || c = '\r' || c = '\x0b' || c = '\x0c'

def pyStripList (l : List Char) : List Char :=
  ((l.dropWhile isPySpace).reverse.dropWhile isPySpace).reverse

/-- Python s.strip(). -/
def pyStrip (s : String) : String := ⟨pyStripList s.data⟩

/-- Python s.lower() (ASCII). -/
def pyLower (s : String) : String := ⟨s.data.map Char.toLower⟩

/-- A single-quote character, used in several server message strings. -/
def sq : String := ⟨['\x27']⟩

def splitOnceList : List Char → Option (List Char × List Char)
  | [] => none
  | c :: cs =>
    if c = ' ' then some ([], cs)
    else
      match splitOnceList cs with
      | none => none
      | some (l, r) => some (c :: l, r)

/-- Python s.split(" ", 1): the head token, and the remainder when a space occurs. -/
def splitOnce (s : String) : String × Option String :=
  match splitOnceList s.data with
  | none => (s, none)
  | some (l, r) => (⟨l⟩, some ⟨r⟩)

/-- Python s.startswith(">"). -/
def pyStartsGt (s : String) : Bool :=
  match s.data with
  | [] => false
  | c :: _ => c = '>'

/-- Python s[1:]. -/
def pyDropFirst (s : String) : String := ⟨s.data.tail⟩

/-- Python a or b for strings (first truthy, i.e. first non-empty). -/
def pyOrS (a b : String) : String := if a = "" then b else a

/-- Python (x or "") for an optional string. -/
def optS (o : Option String) : String := o.getD ""

/-- Python truthiness of an optional string: present and non-empty. -/
def pyTruthy (o : Option String) : Bool := optS o ≠ ""

/-! ### Data model -/

/-- One active websocket connection, as stored in active_rooms:
the dict entry of src/server.py line 137. The websocket handle is
modelled by an opaque numeric id. -/
structure Entry where
  wsId : Nat
  user : Option String
  is_admin : Bool
deriving DecidableEq, Repr

/-- active_rooms: room name mapped to its ordered connection list,
modelled as an association list in dict insertion order. -/
abbrev Registry := List (String × List Entry)

/-- Outbound payloads written with ws.send_text in src/server.py. -/
inductive Msg where
  | env (user text : String)
  | userList (users : List (String × Bool))
deriving DecidableEq, Repr

/-- Observable transport effects of one handler run. -/
inductive OutEvent where
  | sent (dst : Nat) (m : Msg)
  | sendFailed (dst : Nat) (m : Msg)
  | closed (dst : Nat)
deriving DecidableEq, Repr

/-- One attempted send whose failure is caught (try/except pass). -/
def sendText (ok : Nat → Bool) (dst : Nat) (m : Msg) : OutEvent :=
  if ok dst then .sent dst m else .sendFailed dst m

/-- ADMIN_USERNAME and ADMIN_PASSWORD environment values, read per command. -/
structure Config where
  ADMIN_USERNAME : Option String
  ADMIN_PASSWORD : Option String
deriving DecidableEq, Repr

/-- Server-wide mutable state: the persistent rooms table and active_rooms. -/
structure SrvState where
  rooms_db : List String
  active_rooms : Registry
deriving DecidableEq, Repr

/-! ### Registry operations -/

def Registry.getList (reg : Registry) (room : String) : List Entry :=
  match reg.find? (fun p => p.1 == room) with
  | some p => p.2
  | none => []

def Registry.hasRoom (reg : Registry) (room : String) : Bool :=
  (reg.find? (fun p => p.1 == room)).isSome

/-- In-place mutation of the room's live connection list (dict keys are
unique, so only the first matching key is touched). -/
def Registry.modifyBucket : Registry → String → (List Entry → List Entry) → Registry
  | [], _, _ => []
  | p :: ps, room, f =>
    if p.1 == room then (p.1, f p.2) :: ps
    else p :: Registry.modifyBucket ps room f

/-- active_rooms[room].append(entry), creating the key when absent. -/
def Registry.appendEntry (reg : Registry) (room : String) (e : Entry) : Registry :=
  if reg.hasRoom room then reg.modifyBucket room (fun l => l ++ [e])
  else reg ++ [(room, [e])]

/-- list.remove of the first entry holding the given websocket. -/
def removeFirstWs : List Entry → Nat → List Entry
  | [], _ => []
  | e :: es, id => if e.wsId = id then es else e :: removeFirstWs es id

/-- Removing one connection object from a room's live list. -/
def Registry.removeEntry (reg : Registry) (room : String) (id : Nat) : Registry :=
  reg.modifyBucket room (fun l => removeFirstWs l id)

def setUserFirstList : List Entry → Nat → String → List Entry
  | [], _, _ => []
  | e :: es, id, u =>
    if e.wsId = id then { e with user := some u } :: es
    else e :: setUserFirstList es id u

/-- Mutation entry["user"] = u, seen through the registry alias. -/
def Registry.setUser (reg : Registry) (room : String) (id : Nat) (u : String) : Registry :=
  reg.modifyBucket room (fun l => setUserFirstList l id u)

def setAdminFirstList : List Entry → Nat → List Entry
  | [], _ => []
  | e :: es, id =>
    if e.wsId = id then { e with is_admin := true } :: es
    else e :: setAdminFirstList es id

/-- Mutation entry["is_admin"] = True, seen through the registry alias. -/
def Registry.setAdmin (reg : Registry) (room : String) (id : Nat) : Registry :=
  reg.modifyBucket room (fun l => setAdminFirstList l id)

/-- del active_rooms[room]. -/
def Registry.eraseRoom (reg : Registry) (room : String) : Registry :=
  reg.filter (fun p => p.1 ≠ room)

/-- Entries removed by the WebSocketDisconnect handler loop for one socket. -/
def removeAllWs (l : List Entry) (id : Nat) : List Entry :=
  l.filter (fun e => e.wsId ≠ id)

/-! ### Room directory (SQLite rooms table) -/

/-- The (name or "").strip().lower() normalization. -/
def normName (s : String) : String := pyLower (pyStrip s)

def room_exists (db : List String) (name : String) : Bool :=
  db.contains (normName name)

def create_room (db : List String) (name : String) : List String × Bool :=
  let n := normName name
  if db.contains n then (db, false) else (db ++ [n], true)

/-! ### Fan-out helpers -/

/-- The users payload built by broadcast_user_list. -/
def userListUsers (conns : List Entry) : List (String × Bool) :=
  conns.filterMap (fun e =>
    let name := pyStrip (optS e.user)
    if name = "" then none else some (name, e.is_admin))

/-- broadcast_user_list r (src/server.py lines 140-154). -/
def broadcast_user_list (ok : Nat → Bool) (reg : Registry) (r : String) : List OutEvent :=
  let conns := reg.getList r
  conns.map (fun e => sendText ok e.wsId (.userList (userListUsers conns)))

/-! ### Session processing

One inbound frame, parsed. A dict with type "join" is a join payload; any
other dict is read through its user and text fields; non-dict or non-JSON
input is ignored. -/

inductive Envelope where
  | malformed
  | join (user : String)
  | msg (user : String) (text : String)
deriving DecidableEq, Repr

/-- How one loop iteration ends: keep receiving, the server closed this
socket (the next receive ends the session), or an uncaught send error
propagated out of the endpoint coroutine. -/
inductive SessOutcome where
  | cont
  | closedSelf
  | aborted
deriving DecidableEq, Repr

/-- Result of processing one inbound frame for one connection: the new
server state, the connection's own entry object (which the coroutine
holds by reference even after removal from the registry), the transport
events emitted, and how the iteration ended. -/
structure StepRes where
  st : SrvState
  self : Entry
  events : List OutEvent
  outcome : SessOutcome
deriving DecidableEq, Repr

/-- The global duplicate-username scan of src/server.py lines 176-184. -/
def conflictScan (reg : Registry) (nameNorm : String) : Bool :=
  reg.any (fun p => p.2.any (fun e =>
    let u := pyLower (pyStrip (optS e.user))
    (u != "") && (u == nameNorm)))

/-- Join handling, src/server.py lines 169-222. -/
def handleJoin (ok : Nat → Bool) (st : SrvState) (room : String) (self : Entry)
    (rawUser : String) : StepRes :=
  let username := pyStrip rawUser
  if username ≠ "" ∧ optS self.user = "" then
    let nameNorm := pyLower (pyStrip username)
    if conflictScan st.active_rooms nameNorm then
      let m : Msg := .env "system" ("Username " ++ sq ++ username ++ sq ++ " is already in use")
      let reg1 := st.active_rooms.removeEntry room self.wsId
      { st := { st with active_rooms := reg1 }, self := self,
        events := [sendText ok self.wsId m, .closed self.wsId], outcome := .closedSelf }
    else
      let self1 := { self with user := some username }
      let reg1 := st.active_rooms.setUser room self.wsId username
      let evW := sendText ok self.wsId
        (.env "system" ("Welcome " ++ username ++ " to " ++ room ++ "."))
      let joinMsg : Msg := .env "system" (username ++ " joined the room")
      let evJoin := (reg1.getList room).map (fun e => sendText ok e.wsId joinMsg)
      let evUsers := broadcast_user_list ok reg1 room
      { st := { st with active_rooms := reg1 }, self := self1,
        events := evW :: evJoin ++ evUsers, outcome := .cont }
  else
    { st := st, self := self, events := [], outcome := .cont }

/-- The successful-login test of src/server.py line 249. -/
def credsMatch (cfg : Config) (uname pwd : String) : Bool :=
  pyTruthy cfg.ADMIN_USERNAME && pyTruthy cfg.ADMIN_PASSWORD &&
    (cfg.ADMIN_USERNAME == some uname) && (cfg.ADMIN_PASSWORD == some pwd)

/-- The login command, src/server.py lines 241-254. The replies are sent
without a try/except, so a failing send aborts the endpoint coroutine. -/
def handleLogin (cfg : Config) (ok : Nat → Bool) (st : SrvState) (room : String)
    (self : Entry) (arg : String) : StepRes :=
  let creds := splitOnce arg
  match creds.2 with
  | none =>
    let m : Msg := .env "system" "Usage: >login <username> <password>"
    if ok self.wsId then ⟨st, self, [.sent self.wsId m], .cont⟩
    else ⟨st, self, [.sendFailed self.wsId m], .aborted⟩
  | some rest =>
    let uname := pyStrip creds.1
    let pwd := pyStrip rest
    if credsMatch cfg uname pwd then
      let self1 := { self with is_admin := true }
      let st1 := { st with active_rooms := st.active_rooms.setAdmin room self.wsId }
      let m : Msg := .env "system" "Admin privileges granted"
      if ok self.wsId then ⟨st1, self1, [.sent self.wsId m], .cont⟩
      else ⟨st1, self1, [.sendFailed self.wsId m], .aborted⟩
    else
      let m : Msg := .env "system" "Invalid admin credentials"
      if ok self.wsId then ⟨st, self, [.sent self.wsId m], .cont⟩
      else ⟨st, self, [.sendFailed self.wsId m], .aborted⟩

/-- The announcement author chosen at src/server.py lines 271-272, 319-320,
363-364: the live username when the issuer is a named admin, else the
configured admin name, else system. -/
def annUserOf (cfg : Config) (self : Entry) : String :=
  if self.is_admin = true ∧ optS self.user ≠ "" then optS self.user
  else pyOrS (optS cfg.ADMIN_USERNAME) "system"

/-- The create command, src/server.py lines 262-279. -/
def handleCreate (cfg : Config) (ok : Nat → Bool) (st : SrvState) (room : String)
    (self : Entry) (arg : String) : StepRes :=
  let room_name := pyStrip arg
  if room_name = "" then
    let m : Msg := .env "system" "Usage: >create <room-name>"
    if ok self.wsId then ⟨st, self, [.sent self.wsId m], .cont⟩
    else ⟨st, self, [.sendFailed self.wsId m], .aborted⟩
  else
    let res := create_room st.rooms_db room_name
    let st1 := { st with rooms_db := res.1 }
    let txt := "Room " ++ sq ++ room_name ++ sq ++ " " ++
      (if res.2 then "created" else "already exists")
    let priv : Msg := .env "system" txt
    if ok self.wsId then
      let ann : Msg := .env (annUserOf cfg self) txt
      let evAnn := (st1.active_rooms.getList room).map (fun e => sendText ok e.wsId ann)
      ⟨st1, self, .sent self.wsId priv :: evAnn, .cont⟩
    else ⟨st1, self, [.sendFailed self.wsId priv], .aborted⟩

/-- The username match used by both warn and kick:
(e.get("user") or "").strip().lower() == target_norm. -/
def targetMatches (targetNorm : String) (e : Entry) : Bool :=
  pyLower (pyStrip (optS e.user)) == targetNorm

/-- The warn message defaulting of src/server.py line 288. -/
def warnMsgOf (arg : String) : String :=
  match (splitOnce arg).2 with
  | some r => if pyStrip r ≠ "" then pyStrip r else "You have been warned by an admin"
  | none => "You have been warned by an admin"

/-- The kick reason defaulting of src/server.py line 336. -/
def kickReasonOf (arg : String) : String :=
  match (splitOnce arg).2 with
  | some r => if pyStrip r ≠ "" then pyStrip r else "kicked by admin"
  | none => "kicked by admin"

/-- The per-recipient warn loop, src/server.py lines 293-308: send the
warning to each matching entry; when the send fails, close that entry and
remove it from the live room list. -/
def warnLoop (ok : Nat → Bool) (room : String) (targetNorm : String) (wmsg : Msg) :
    List Entry → Registry → Nat → Registry × Nat × List OutEvent
  | [], reg, found => (reg, found, [])
  | e :: es, reg, found =>
    if targetMatches targetNorm e then
      if ok e.wsId then
        let r := warnLoop ok room targetNorm wmsg es reg (found + 1)
        (r.1, r.2.1, .sent e.wsId wmsg :: r.2.2)
      else
        let reg1 := reg.removeEntry room e.wsId
        let r := warnLoop ok room targetNorm wmsg es reg1 found
        (r.1, r.2.1, .sendFailed e.wsId wmsg :: .closed e.wsId :: r.2.2)
    else warnLoop ok room targetNorm wmsg es reg found

/-- The warn command, src/server.py lines 282-327. -/
def handleWarn (cfg : Config) (ok : Nat → Bool) (st : SrvState) (room : String)
    (self : Entry) (arg : String) : StepRes :=
  let wp := splitOnce arg
  let target := pyStrip wp.1
  if target = "" then
    let m : Msg := .env "system" "Usage: >warn <username> <message>"
    if ok self.wsId then ⟨st, self, [.sent self.wsId m], .cont⟩
    else ⟨st, self, [.sendFailed self.wsId m], .aborted⟩
  else
    let warn_msg := warnMsgOf arg
    let target_norm := pyLower target
    let wmsg : Msg := .env "system" ("WARNING: " ++ warn_msg)
    let snapshot := st.active_rooms.getList room
    let r := warnLoop ok room target_norm wmsg snapshot st.active_rooms 0
    let reg1 := r.1
    let found := r.2.1
    let evLoop := r.2.2
    let evUsers := broadcast_user_list ok reg1 room
    let st1 := { st with active_rooms := reg1 }
    let confirm : Msg := .env "system"
      ("Warned " ++ Nat.repr found ++ " connection(s) for " ++ target ++ ".")
    if ok self.wsId then
      let evAnn :=
        if found ≠ 0 then
          let ann : Msg := .env (annUserOf cfg self) ("Admin warned " ++ target ++ ": " ++ warn_msg)
          (reg1.getList room).map (fun e => sendText ok e.wsId ann)
        else []
      ⟨st1, self, evLoop ++ evUsers ++ .sent self.wsId confirm :: evAnn, .cont⟩
    else ⟨st1, self, evLoop ++ evUsers ++ [.sendFailed self.wsId confirm], .aborted⟩

/-- The per-recipient kick loop, src/server.py lines 341-358: notify and
close each matching entry (closing also on a failed notify) and remove it
from the live room list. -/
def kickLoop (ok : Nat → Bool) (room : String) (targetNorm : String) (kmsg : Msg) :
    List Entry → Registry → Nat → Registry × Nat × List OutEvent
  | [], reg, removed => (reg, removed, [])
  | e :: es, reg, removed =>
    if targetMatches targetNorm e then
      let evs :=
        if ok e.wsId then [OutEvent.sent e.wsId kmsg, .closed e.wsId]
        else [OutEvent.sendFailed e.wsId kmsg, .closed e.wsId]
      let reg1 := reg.removeEntry room e.wsId
      let r := kickLoop ok room targetNorm kmsg es reg1 (removed + 1)
      (r.1, r.2.1, evs ++ r.2.2)
    else kickLoop ok room targetNorm kmsg es reg removed

/-- The kick command, src/server.py lines 330-376. -/
def handleKick (cfg : Config) (ok : Nat → Bool) (st : SrvState) (room : String)
    (self : Entry) (arg : String) : StepRes :=
  let kp := splitOnce arg
  let target := pyStrip kp.1
  if target = "" then
    let m : Msg := .env "system" "Usage: >kick <username> <reason?>"
    if ok self.wsId then ⟨st, self, [.sent self.wsId m], .cont⟩
    else ⟨st, self, [.sendFailed self.wsId m], .aborted⟩
  else
    let reason := kickReasonOf arg
    let target_norm := pyLower target
    let kmsg : Msg := .env "system" ("KICK: " ++ reason)
    let snapshot := st.active_rooms.getList room
    let r := kickLoop ok room target_norm kmsg snapshot st.active_rooms 0
    let reg1 := r.1
    let removed := r.2.1
    let evLoop := r.2.2
    let st1 := { st with active_rooms := reg1 }
    let confirm : Msg := .env "system"
      ("Kicked " ++ Nat.repr removed ++ " connection(s) for " ++ target ++ ".")
    if ok self.wsId then
      let evPost :=
        if removed ≠ 0 then
          let ann : Msg := .env (annUserOf cfg self)
            (target ++ " was kicked by admin (" ++ reason ++ ")")
          (reg1.getList room).map (fun e => sendText ok e.wsId ann) ++
            broadcast_user_list ok reg1 room
        else []
      ⟨st1, self, evLoop ++ .sent self.wsId confirm :: evPost, .cont⟩
    else ⟨st1, self, evLoop ++ [.sendFailed self.wsId confirm], .aborted⟩

/-- arg = parts[1].strip() if len(parts) > 1 else "" (src/server.py line 238). -/
def cmdArg (cmd_body : String) : String :=
  match (splitOnce cmd_body).2 with
  | some r => pyStrip r
  | none => ""

/-- The command dispatcher, src/server.py lines 231-379, for a stripped
text already known to start with the command marker. -/
def dispatchCommand (cfg : Config) (ok : Nat → Bool) (st : SrvState) (room : String)
    (self : Entry) (text : String) : StepRes :=
  let cmd_body := pyStrip (pyDropFirst text)
  if cmd_body = "" then
    let m : Msg := .env "system" "Empty command"
    if ok self.wsId then ⟨st, self, [.sent self.wsId m], .cont⟩
    else ⟨st, self, [.sendFailed self.wsId m], .aborted⟩
  else
    let parts := splitOnce cmd_body
    let cmd := pyLower parts.1
    let arg := cmdArg cmd_body
    if cmd = "login" then handleLogin cfg ok st room self arg
    else if self.is_admin = false then
      let m : Msg := .env "system" "Unauthorized: admin only command"
      if ok self.wsId then ⟨st, self, [.sent self.wsId m], .cont⟩
      else ⟨st, self, [.sendFailed self.wsId m], .aborted⟩
    else if cmd = "create" then handleCreate cfg ok st room self arg
    else if cmd = "warn" then handleWarn cfg ok st room self arg
    else if cmd = "kick" then handleKick cfg ok st room self arg
    else
      let m : Msg := .env "system" ("Unknown command: " ++ cmd)
      if ok self.wsId then ⟨st, self, [.sent self.wsId m], .cont⟩
      else ⟨st, self, [.sendFailed self.wsId m], .aborted⟩

/-- Plain chat broadcast, src/server.py lines 381-388: one attempted send
per entry of a snapshot of the room list, each failure swallowed. -/
def handleChat (ok : Nat → Bool) (st : SrvState) (room : String) (self : Entry)
    (username text : String) : StepRes :=
  let payload : Msg := .env (pyOrS (optS self.user) (pyOrS username "anon")) text
  let conns := st.active_rooms.getList room
  ⟨st, self, conns.map (fun e => sendText ok e.wsId payload), .cont⟩

/-- One iteration of the receive loop body, src/server.py lines 158-388. -/
def processData (cfg : Config) (ok : Nat → Bool) (st : SrvState) (room : String)
    (self : Entry) (data : Envelope) : StepRes :=
  match data with
  | .malformed => ⟨st, self, [], .cont⟩
  | .join u => handleJoin ok st room self u
  | .msg username rawText =>
    let text := pyStrip rawText
    if text = "" then ⟨st, self, [], .cont⟩
    else if pyStartsGt text then dispatchCommand cfg ok st room self text
    else handleChat ok st room self username text

/-- Connection arrival, src/server.py lines 122-138. The Bool reports
whether an entry was registered. On the reject path the error send is not
guarded, so its failure skips the close. -/
def websocket_connect (ok : Nat → Bool) (st : SrvState) (roomRaw : String) (wsId : Nat) :
    SrvState × List OutEvent × Bool :=
  let room := normName roomRaw
  if room_exists st.rooms_db room = false then
    let m : Msg := .env "system" ("Room " ++ sq ++ room ++ sq ++ " does not exist")
    if ok wsId then (st, [.sent wsId m, .closed wsId], false)
    else (st, [.sendFailed wsId m], false)
  else
    ({ st with active_rooms := st.active_rooms.appendEntry room ⟨wsId, none, false⟩ },
      [], true)

/-- The WebSocketDisconnect handler, src/server.py lines 389-399. -/
def websocket_disconnect (st : SrvState) (room : String) (wsId : Nat) : SrvState :=
  if st.active_rooms.hasRoom room then
    let reg1 : Registry := st.active_rooms.modifyBucket room (fun l => removeAllWs l wsId)
    if reg1.getList room = [] then { st with active_rooms := reg1.eraseRoom room }
    else { st with active_rooms := reg1 }
  else st

/-- All state-mutating interactions the endpoint exposes. -/
inductive Op where
  | connect (roomRaw : String) (wsId : Nat)
  | recv (room : String) (self : Entry) (data : Envelope)
  | disconnect (room : String) (wsId : Nat)

/-- The server state after one interaction. -/
def step (cfg : Config) (ok : Nat → Bool) (st : SrvState) : Op → SrvState
  | .connect roomRaw wsId => (websocket_connect ok st roomRaw wsId).1
  | .recv room self data => (processData cfg ok st room self data).st
  | .disconnect room wsId => websocket_disconnect st room wsId

/-! ### The global username-uniqueness invariant -/

/-- The normalized username an entry contributes to the global scan, when
it has a non-empty one. -/
def entryUserNorm (e : Entry) : Option String :=
  let u := pyLower (pyStrip (optS e.user))
  if u = "" then none else some u

def bucketUsers (l : List Entry) : List String := l.filterMap entryUserNorm

/-- All non-empty normalized usernames across every room, in registry order. -/
def usersOf : Registry → List String
  | [] => []
  | p :: ps => bucketUsers p.2 ++ usersOf ps

/-- No two active entries, in any rooms, hold the same username up to
case-insensitive comparison. -/
def NoDupUsers (reg : Registry) : Prop := (usersOf reg).Nodup

instance (reg : Registry) : Decidable (NoDupUsers reg) := by
  unfold NoDupUsers; infer_instance

/-- The payload an event attempted to deliver, when it is a send. -/
def eventMsg : OutEvent → Option Msg
  | .sent _ m => some m
  | .sendFailed _ m => some m
  | .closed _ => none

/-- The credential pair a command text would submit to the login check:
some (uname, pwd) exactly when the dispatcher would reach the credential
comparison of src/server.py line 249 on this (stripped) text. -/
def loginTokens (text : String) : Option (String × String) :=
  let cmd_body := pyStrip (pyDropFirst text)
  if cmd_body = "" then none
  else if pyLower (splitOnce cmd_body).1 = "login" then
    let arg := cmdArg cmd_body
    match (splitOnce arg).2 with
    | none => none
    | some rest => some (pyStrip (splitOnce arg).1, pyStrip rest)
  else none

/-! ### Registry lemmas -/

lemma usersOf_append (a b : Registry) : usersOf (a ++ b) = usersOf a ++ usersOf b := by
  induction a with
  | nil => simp [usersOf]
  | cons p ps ih => simp [usersOf, ih]

lemma bucketUsers_sublist {l₁ l₂ : List Entry} (h : l₁.Sublist l₂) :
    (bucketUsers l₁).Sublist (bucketUsers l₂) :=
  h.filterMap entryUserNorm

lemma removeFirstWs_sublist (l : List Entry) (id : Nat) :
    (removeFirstWs l id).Sublist l := by
  induction l with
  | nil => simp [removeFirstWs]
  | cons e es ih =>
    by_cases h : e.wsId = id
    · simp [removeFirstWs, h, List.sublist_cons_self]
    · simpa [removeFirstWs, h] using ih.cons₂ e

lemma removeAllWs_sublist (l : List Entry) (id : Nat) :
    (removeAllWs l id).Sublist l :=
  List.filter_sublist l

lemma usersOf_modifyBucket_sublist (reg : Registry) (room : String)
    (f : List Entry → List Entry)
    (hf : ∀ l, (bucketUsers (f l)).Sublist (bucketUsers l)) :
    (usersOf (reg.modifyBucket room f)).Sublist (usersOf reg) := by
  induction reg with
  | nil => simp [Registry.modifyBucket]
  | cons p ps ih =>
    by_cases h : (p.1 == room) = true
    · simp only [Registry.modifyBucket, h, if_true, usersOf]
      exact (hf p.2).append (List.Sublist.refl _)
    · simp only [Registry.modifyBucket, h, if_false, usersOf]
      exact (List.Sublist.refl _).append ih

lemma usersOf_modifyBucket_eq (reg : Registry) (room : String)
    (f : List Entry → List Entry)
    (hf : ∀ l, bucketUsers (f l) = bucketUsers l) :
    usersOf (reg.modifyBucket room f) = usersOf reg := by
  induction reg with
  | nil => simp [Registry.modifyBucket]
  | cons p ps ih =>
    by_cases h : (p.1 == room) = true
    · simp [Registry.modifyBucket, h, usersOf, hf]
    · simp [Registry.modifyBucket, h, usersOf, ih]

lemma usersOf_eraseRoom (reg : Registry) (room : String) :
    (usersOf (reg.eraseRoom room)).Sublist (usersOf reg) := by
  induction reg with
  | nil => simp [Registry.eraseRoom]
  | cons p ps ih =>
    by_cases h : p.1 = room
    · have h1 : Registry.eraseRoom (p :: ps) room = Registry.eraseRoom ps room := by
        simp [Registry.eraseRoom, List.filter_cons, h]
      rw [h1]
      exact ih.trans (List.sublist_append_right _ _)
    · have h1 : Registry.eraseRoom (p :: ps) room = p :: Registry.eraseRoom ps room := by
        simp [Registry.eraseRoom, List.filter_cons, h]
      rw [h1]
      exact (List.Sublist.refl (bucketUsers p.2)).append ih

lemma bucketUsers_setAdminFirstList (l : List Entry) (id : Nat) :
    bucketUsers (setAdminFirstList l id) = bucketUsers l := by
  induction l with
  | nil => simp [setAdminFirstList]
  | cons e es ih =>
    by_cases h : e.wsId = id
    · simp [setAdminFirstList, h, bucketUsers, List.filterMap_cons, entryUserNorm, optS]
    · simp only [setAdminFirstList, h, if_false, bucketUsers, List.filterMap_cons]
      cases entryUserNorm e <;> simp_all [bucketUsers]

lemma usersOf_setAdmin (reg : Registry) (room : String) (id : Nat) :
    usersOf (reg.setAdmin room id) = usersOf reg :=
  usersOf_modifyBucket_eq reg room _ (fun l => bucketUsers_setAdminFirstList l id)

lemma entryUserNorm_none (id : Nat) (b : Bool) :
    entryUserNorm ⟨id, none, b⟩ = none := by
  simp [entryUserNorm, optS, pyStrip, pyStripList, pyLower]

lemma usersOf_appendEntry_none (reg : Registry) (room : String) (id : Nat) :
    usersOf (reg.appendEntry room ⟨id, none, false⟩) = usersOf reg := by
  unfold Registry.appendEntry
  by_cases h : reg.hasRoom room = true
  · simp only [h, if_true]
    refine usersOf_modifyBucket_eq reg room _ (fun l => ?_)
    simp [bucketUsers, List.filterMap_append, entryUserNorm_none]
  · simp only [h, if_false, Bool.false_eq_true, usersOf_append]
    simp [usersOf, bucketUsers, entryUserNorm_none]

lemma usersOf_removeEntry_sublist (reg : Registry) (room : String) (id : Nat) :
    (usersOf (reg.removeEntry room id)).Sublist (usersOf reg) :=
  usersOf_modifyBucket_sublist reg room _
    (fun l => bucketUsers_sublist (removeFirstWs_sublist l id))

lemma noDup_of_sublist {a b : Registry} (h : (usersOf b).Sublist (usersOf a))
    (ha : NoDupUsers a) : NoDupUsers b :=
  h.nodup ha

/-! ### The conflict scan and setting a username -/

lemma conflictScan_eq_true_iff (reg : Registry) (n : String) :
    conflictScan reg n = true ↔
      ∃ p ∈ reg, ∃ e ∈ p.2,
        pyLower (pyStrip (optS e.user)) ≠ "" ∧ pyLower (pyStrip (optS e.user)) = n := by
  simp [conflictScan, List.any_eq_true]

lemma mem_usersOf_iff (reg : Registry) (n : String) :
    n ∈ usersOf reg ↔ ∃ p ∈ reg, ∃ e ∈ p.2, entryUserNorm e = some n := by
  induction reg with
  | nil => simp [usersOf]
  | cons p ps ih =>
    simp only [usersOf, List.mem_append, ih, bucketUsers, List.mem_filterMap,
      List.mem_cons]
    constructor
    · rintro (⟨e, he, hn⟩ | ⟨q, hq, e, he, hn⟩)
      · exact ⟨p, Or.inl rfl, e, he, hn⟩
      · exact ⟨q, Or.inr hq, e, he, hn⟩
    · rintro ⟨q, (rfl | hq), e, he, hn⟩
      · exact Or.inl ⟨e, he, hn⟩
      · exact Or.inr ⟨q, hq, e, he, hn⟩

lemma not_mem_usersOf_of_scan_false {reg : Registry} {n : String}
    (h : conflictScan reg n = false) : n ∉ usersOf reg := by
  intro hmem
  rw [mem_usersOf_iff] at hmem
  obtain ⟨p, hp, e, he, hn⟩ := hmem
  have hcond : pyLower (pyStrip (optS e.user)) ≠ "" ∧
      pyLower (pyStrip (optS e.user)) = n := by
    unfold entryUserNorm at hn
    by_cases hz : pyLower (pyStrip (optS e.user)) = ""
    · simp [hz] at hn
    · simp [hz] at hn; exact ⟨hz, hn⟩
  have : conflictScan reg n = true :=
    (conflictScan_eq_true_iff reg n).mpr ⟨p, hp, e, he, hcond⟩
  simp [this] at h

lemma bucketUsers_setUserFirstList_subperm (l : List Entry) (id : Nat) (u : String)
    (hn : pyLower (pyStrip u) ≠ "") :
    (bucketUsers (setUserFirstList l id u)).Subperm
      (pyLower (pyStrip u) :: bucketUsers l) := by
  induction l with
  | nil => simp [setUserFirstList, bucketUsers, List.nil_subperm]
  | cons e es ih =>
    by_cases h : e.wsId = id
    · have hb : bucketUsers (setUserFirstList (e :: es) id u) =
          pyLower (pyStrip u) :: bucketUsers es := by
        simp [setUserFirstList, h, bucketUsers, List.filterMap_cons, entryUserNorm,
          optS, hn]
      rw [hb]
      refine List.Sublist.subperm ?_
      refine List.Sublist.cons₂ _ ?_
      exact bucketUsers_sublist (List.sublist_cons_self e es)
    · simp only [setUserFirstList, h, if_false, bucketUsers, List.filterMap_cons]
      cases hE : entryUserNorm e with
      | none =>
        simpa [bucketUsers] using ih
      | some m =>
        have step1 : (m :: List.filterMap entryUserNorm (setUserFirstList es id u)).Subperm
            (m :: (pyLower (pyStrip u) :: bucketUsers es)) :=
          (List.subperm_cons m).mpr ih
        have hperm : (m :: (pyLower (pyStrip u) :: bucketUsers es)).Perm
            (pyLower (pyStrip u) :: (m :: bucketUsers es)) := by
          simpa using (@List.perm_middle String (pyLower (pyStrip u)) [m]
            (bucketUsers es))
        exact step1.trans hperm.subperm

lemma usersOf_setUser_subperm (reg : Registry) (room : String) (id : Nat) (u : String)
    (hn : pyLower (pyStrip u) ≠ "") :
    (usersOf (reg.setUser room id u)).Subperm (pyLower (pyStrip u) :: usersOf reg) := by
  induction reg with
  | nil => simp [Registry.setUser, Registry.modifyBucket, usersOf, List.nil_subperm]
  | cons p ps ih =>
    by_cases h : (p.1 == room) = true
    · have hb := bucketUsers_setUserFirstList_subperm p.2 id u hn
      simp only [Registry.setUser, Registry.modifyBucket, h, if_true, usersOf]
      obtain ⟨w, hw1, hw2⟩ := hb
      exact ⟨w ++ usersOf ps, hw1.append_right _, by simpa using hw2.append_right _⟩
    · simp only [Registry.setUser, Registry.modifyBucket, h, if_false, usersOf]
      have ih' : (usersOf (Registry.modifyBucket ps room fun l => setUserFirstList l id u)).Subperm
          (pyLower (pyStrip u) :: usersOf ps) := ih
      obtain ⟨w, hw1, hw2⟩ := ih'
      refine List.Subperm.trans ⟨bucketUsers p.2 ++ w, hw1.append_left _,
        (hw2.append_left (bucketUsers p.2))⟩ ?_
      exact (@List.perm_middle String (pyLower (pyStrip u)) (bucketUsers p.2)
        (usersOf ps)).subperm

/-! ### Idempotence of strip, non-emptiness of lower -/

lemma dropWhile_isPySpace_idem (l : List Char) :
    (l.dropWhile isPySpace).dropWhile isPySpace = l.dropWhile isPySpace := by
  induction l with
  | nil => simp
  | cons c cs ih =>
    by_cases h : isPySpace c = true
    · simp [List.dropWhile_cons, h, ih]
    · simp [List.dropWhile_cons, h]

lemma pyStripList_prefix_aux (l : List Char) :
    ∃ r, l.dropWhile isPySpace = pyStripList l ++ r := by
  obtain ⟨t, ht⟩ :=
    @List.dropWhile_suffix Char ((l.dropWhile isPySpace).reverse) isPySpace
  refine ⟨t.reverse, ?_⟩
  have h2 := congrArg List.reverse ht
  simp only [List.reverse_append, List.reverse_reverse] at h2
  rw [pyStripList]
  exact h2.symm

lemma dropWhile_pyStripList (l : List Char) :
    (pyStripList l).dropWhile isPySpace = pyStripList l := by
  cases hb : pyStripList l with
  | nil => simp
  | cons c bt =>
    obtain ⟨r, hr⟩ := pyStripList_prefix_aux l
    rw [hb, List.cons_append] at hr
    have hne : l.dropWhile isPySpace ≠ [] := by rw [hr]; simp
    have hhead := List.head_dropWhile_not isPySpace l hne
    simp only [hr, List.head_cons] at hhead
    simp [List.dropWhile_cons, hhead]

lemma pyStripList_idem (l : List Char) :
    pyStripList (pyStripList l) = pyStripList l := by
  have h1 := dropWhile_pyStripList l
  calc pyStripList (pyStripList l)
      = (((pyStripList l).dropWhile isPySpace).reverse.dropWhile isPySpace).reverse := rfl
    _ = ((pyStripList l).reverse.dropWhile isPySpace).reverse := by rw [h1]
    _ = ((((l.dropWhile isPySpace).reverse.dropWhile isPySpace).dropWhile
          isPySpace)).reverse := by simp [pyStripList]
    _ = (((l.dropWhile isPySpace).reverse.dropWhile isPySpace)).reverse := by
          rw [dropWhile_isPySpace_idem]
    _ = pyStripList l := rfl

lemma pyStrip_pyStrip (s : String) : pyStrip (pyStrip s) = pyStrip s := by
  simp [pyStrip, pyStripList_idem]

lemma pyLower_eq_empty_iff (s : String) : pyLower s = "" ↔ s = "" := by
  cases s with
  | mk data =>
    constructor
    · intro h
      have h2 : (pyLower ⟨data⟩).data = [] := by rw [h]
      simp only [pyLower, List.map_eq_nil_iff] at h2
      rw [h2]
    · intro h
      rw [h]
      decide

/-! ### NoDupUsers preservation, handler by handler -/

lemma noDup_handleJoin (ok : Nat → Bool) (st : SrvState) (room : String)
    (self : Entry) (rawUser : String) (h : NoDupUsers st.active_rooms) :
    NoDupUsers ((handleJoin ok st room self rawUser).st.active_rooms) := by
  unfold handleJoin
  dsimp only
  split
  case isTrue h1 =>
    split
    case isTrue h2 =>
      exact noDup_of_sublist (usersOf_removeEntry_sublist _ _ _) h
    case isFalse h2 =>
      have husername : pyStrip rawUser ≠ "" := h1.1
      have hstr : pyStrip (pyStrip rawUser) = pyStrip rawUser := pyStrip_pyStrip rawUser
      have hn : pyLower (pyStrip (pyStrip rawUser)) ≠ "" := by
        rw [hstr]
        exact fun hc => husername ((pyLower_eq_empty_iff _).mp hc)
      have hscanF : conflictScan st.active_rooms
          (pyLower (pyStrip (pyStrip rawUser))) = false := by
        simpa using h2
      have hnm : pyLower (pyStrip (pyStrip rawUser)) ∉ usersOf st.active_rooms :=
        not_mem_usersOf_of_scan_false hscanF
      have hsub := usersOf_setUser_subperm st.active_rooms room self.wsId
        (pyStrip rawUser) hn
      obtain ⟨w, hw1, hw2⟩ := hsub
      have hcons : (pyLower (pyStrip (pyStrip rawUser)) :: usersOf st.active_rooms).Nodup :=
        List.nodup_cons.mpr ⟨hnm, h⟩
      exact hw1.nodup (hw2.nodup hcons)
  case isFalse h1 => exact h

lemma usersOf_warnLoop_sublist (ok : Nat → Bool) (room tn : String) (m : Msg) :
    ∀ (l : List Entry) (reg : Registry) (n : Nat),
      (usersOf (warnLoop ok room tn m l reg n).1).Sublist (usersOf reg) := by
  intro l
  induction l with
  | nil => intro reg n; simp [warnLoop]
  | cons e es ih =>
    intro reg n
    by_cases h1 : targetMatches tn e = true
    · by_cases h2 : ok e.wsId = true
      · simpa [warnLoop, h1, h2] using ih reg (n + 1)
      · simp only [warnLoop, h1, if_true, h2]
        simp only [Bool.false_eq_true, if_false]
        exact (ih _ n).trans (usersOf_removeEntry_sublist _ _ _)
    · simpa [warnLoop, h1] using ih reg n

lemma usersOf_kickLoop_sublist (ok : Nat → Bool) (room tn : String) (m : Msg) :
    ∀ (l : List Entry) (reg : Registry) (n : Nat),
      (usersOf (kickLoop ok room tn m l reg n).1).Sublist (usersOf reg) := by
  intro l
  induction l with
  | nil => intro reg n; simp [kickLoop]
  | cons e es ih =>
    intro reg n
    by_cases h1 : targetMatches tn e = true
    · simp only [kickLoop, h1, if_true]
      exact (ih _ (n + 1)).trans (usersOf_removeEntry_sublist _ _ _)
    · simpa [kickLoop, h1] using ih reg n

lemma noDup_handleLogin (cfg : Config) (ok : Nat → Bool) (st : SrvState)
    (room : String) (self : Entry) (arg : String) (h : NoDupUsers st.active_rooms) :
    NoDupUsers ((handleLogin cfg ok st room self arg).st.active_rooms) := by
  unfold handleLogin
  dsimp only
  split
  · split <;> exact h
  · split
    · split <;>
        · unfold NoDupUsers
          rw [usersOf_setAdmin]
          exact h
    · split <;> exact h

lemma noDup_handleCreate (cfg : Config) (ok : Nat → Bool) (st : SrvState)
    (room : String) (self : Entry) (arg : String) (h : NoDupUsers st.active_rooms) :
    NoDupUsers ((handleCreate cfg ok st room self arg).st.active_rooms) := by
  unfold handleCreate
  dsimp only
  split
  · split <;> exact h
  · split <;> exact h

lemma noDup_handleWarn (cfg : Config) (ok : Nat → Bool) (st : SrvState)
    (room : String) (self : Entry) (arg : String) (h : NoDupUsers st.active_rooms) :
    NoDupUsers ((handleWarn cfg ok st room self arg).st.active_rooms) := by
  unfold handleWarn
  dsimp only
  split
  · split <;> exact h
  · split <;>
      exact noDup_of_sublist (usersOf_warnLoop_sublist _ _ _ _ _ _ _) h

lemma noDup_handleKick (cfg : Config) (ok : Nat → Bool) (st : SrvState)
    (room : String) (self : Entry) (arg : String) (h : NoDupUsers st.active_rooms) :
    NoDupUsers ((handleKick cfg ok st room self arg).st.active_rooms) := by
  unfold handleKick
  dsimp only
  split
  · split <;> exact h
  · split <;>
      exact noDup_of_sublist (usersOf_kickLoop_sublist _ _ _ _ _ _ _) h

lemma noDup_dispatchCommand (cfg : Config) (ok : Nat → Bool) (st : SrvState)
    (room : String) (self : Entry) (text : String) (h : NoDupUsers st.active_rooms) :
    NoDupUsers ((dispatchCommand cfg ok st room self text).st.active_rooms) := by
  unfold dispatchCommand
  dsimp only
  split
  · split <;> exact h
  · split
    · exact noDup_handleLogin cfg ok st room self _ h
    · split
      · split <;> exact h
      · split
        · exact noDup_handleCreate cfg ok st room self _ h
        · split
          · exact noDup_handleWarn cfg ok st room self _ h
          · split
            · exact noDup_handleKick cfg ok st room self _ h
            · split <;> exact h

lemma noDup_processData (cfg : Config) (ok : Nat → Bool) (st : SrvState)
    (room : String) (self : Entry) (data : Envelope) (h : NoDupUsers st.active_rooms) :
    NoDupUsers ((processData cfg ok st room self data).st.active_rooms) := by
  unfold processData
  cases data with
  | malformed => exact h
  | join u => exact noDup_handleJoin ok st room self u h
  | msg username rawText =>
    dsimp only
    split
    · exact h
    · split
      · exact noDup_dispatchCommand cfg ok st room self _ h
      · exact h

lemma noDup_websocket_connect (ok : Nat → Bool) (st : SrvState)
    (roomRaw : String) (wsId : Nat) (h : NoDupUsers st.active_rooms) :
    NoDupUsers ((websocket_connect ok st roomRaw wsId).1.active_rooms) := by
  unfold websocket_connect
  dsimp only
  split
  · split <;> exact h
  · unfold NoDupUsers
    rw [usersOf_appendEntry_none]
    exact h

lemma noDup_websocket_disconnect (st : SrvState) (room : String) (wsId : Nat)
    (h : NoDupUsers st.active_rooms) :
    NoDupUsers ((websocket_disconnect st room wsId).active_rooms) := by
  unfold websocket_disconnect
  dsimp only
  split
  · have hsub : (usersOf (st.active_rooms.modifyBucket room
        (fun l => removeAllWs l wsId))).Sublist (usersOf st.active_rooms) :=
      usersOf_modifyBucket_sublist _ _ _
        (fun l => bucketUsers_sublist (removeAllWs_sublist l wsId))
    split
    · exact noDup_of_sublist ((usersOf_eraseRoom _ _).trans hsub) h
    · exact noDup_of_sublist hsub h
  · exact h

/-! ### Registry access lemmas -/

lemma hasRoom_modifyBucket (reg : Registry) (room r : String)
    (f : List Entry → List Entry) :
    (reg.modifyBucket room f).hasRoom r = reg.hasRoom r := by
  induction reg with
  | nil => rfl
  | cons p ps ih =>
    by_cases h : (p.1 == room) = true
    · by_cases hr : (p.1 == r) = true <;>
        simp [Registry.modifyBucket, h, Registry.hasRoom, List.find?_cons, hr]
    · by_cases hr : (p.1 == r) = true
      · simp [Registry.modifyBucket, h, Registry.hasRoom, List.find?_cons, hr]
      · simp only [Registry.modifyBucket, h, if_false]
        simpa [Registry.hasRoom, List.find?_cons, hr] using ih

lemma getList_modifyBucket_self (reg : Registry) (room : String)
    (f : List Entry → List Entry) (h : reg.hasRoom room = true) :
    (reg.modifyBucket room f).getList room = f (reg.getList room) := by
  induction reg with
  | nil => simp [Registry.hasRoom] at h
  | cons p ps ih =>
    by_cases hp : (p.1 == room) = true
    · simp [Registry.modifyBucket, hp, Registry.getList, List.find?_cons]
    · have h2 : Registry.hasRoom ps room = true := by
        simpa [Registry.hasRoom, List.find?_cons, hp] using h
      simp only [Registry.modifyBucket, hp, if_false]
      simpa [Registry.getList, List.find?_cons, hp] using ih h2

lemma modifyBucket_hasRoom_false (reg : Registry) (room : String)
    (f : List Entry → List Entry) (h : reg.hasRoom room = false) :
    reg.modifyBucket room f = reg := by
  induction reg with
  | nil => rfl
  | cons p ps ih =>
    by_cases hp : (p.1 == room) = true
    · simp [Registry.hasRoom, List.find?_cons, hp] at h
    · have h2 : Registry.hasRoom ps room = false := by
        simpa [Registry.hasRoom, List.find?_cons, hp] using h
      simp [Registry.modifyBucket, hp, ih h2]

lemma hasRoom_eraseRoom_self (reg : Registry) (room : String) :
    (reg.eraseRoom room).hasRoom room = false := by
  induction reg with
  | nil => rfl
  | cons p ps ih =>
    by_cases hp : p.1 = room
    · simp only [Registry.eraseRoom, List.filter_cons, hp] at ih ⊢
      simpa using ih
    · simpa [Registry.eraseRoom, Registry.hasRoom, List.filter_cons, hp,
        List.find?_cons] using ih

lemma hasRoom_of_getList_ne_nil (reg : Registry) (room : String)
    (h : reg.getList room ≠ []) : reg.hasRoom room = true := by
  unfold Registry.getList Registry.hasRoom at *
  cases hf : reg.find? (fun p => p.1 == room) with
  | none => rw [hf] at h; simp at h
  | some p => simp [hf]

lemma not_mem_wsId_removeFirstWs (l : List Entry) (id : Nat)
    (hnd : (l.map Entry.wsId).Nodup) :
    ∀ e ∈ removeFirstWs l id, e.wsId ≠ id := by
  induction l with
  | nil => intro e he; simp [removeFirstWs] at he
  | cons x xs ih =>
    intro e he
    rw [List.map_cons, List.nodup_cons] at hnd
    by_cases hx : x.wsId = id
    · rw [removeFirstWs, if_pos hx] at he
      intro hc
      exact hnd.1 (hx ▸ hc ▸ List.mem_map_of_mem Entry.wsId he)
    · rw [removeFirstWs, if_neg hx] at he
      rcases List.mem_cons.mp he with rfl | he2
      · exact hx
      · exact ih hnd.2 e he2

/-! ### Closed forms for the warn and kick loops -/

lemma warnLoop_spec (ok : Nat → Bool) (room tn : String) (m : Msg) :
    ∀ (l : List Entry) (reg : Registry) (n : Nat),
      warnLoop ok room tn m l reg n =
        ((l.filter (fun e => targetMatches tn e && !ok e.wsId)).foldl
            (fun r e => r.removeEntry room e.wsId) reg,
          n + (l.filter (fun e => targetMatches tn e && ok e.wsId)).length,
          l.flatMap (fun e =>
            if targetMatches tn e then
              if ok e.wsId then [OutEvent.sent e.wsId m]
              else [OutEvent.sendFailed e.wsId m, .closed e.wsId]
            else [])) := by
  intro l
  induction l with
  | nil => intro reg n; simp [warnLoop]
  | cons e es ih =>
    intro reg n
    by_cases h1 : targetMatches tn e = true
    · by_cases h2 : ok e.wsId = true
      · simp [warnLoop, h1, h2, ih, List.filter_cons, Nat.add_assoc, Nat.add_comm]
      · simp [warnLoop, h1, h2, ih, List.filter_cons]
    · simp [warnLoop, h1, ih, List.filter_cons]

lemma kickLoop_spec (ok : Nat → Bool) (room tn : String) (m : Msg) :
    ∀ (l : List Entry) (reg : Registry) (n : Nat),
      kickLoop ok room tn m l reg n =
        ((l.filter (fun e => targetMatches tn e)).foldl
            (fun r e => r.removeEntry room e.wsId) reg,
          n + (l.filter (fun e => targetMatches tn e)).length,
          l.flatMap (fun e =>
            if targetMatches tn e then
              if ok e.wsId then [OutEvent.sent e.wsId m, .closed e.wsId]
              else [OutEvent.sendFailed e.wsId m, .closed e.wsId]
            else [])) := by
  intro l
  induction l with
  | nil => intro reg n; simp [kickLoop]
  | cons e es ih =>
    intro reg n
    by_cases h1 : targetMatches tn e = true
    · by_cases h2 : ok e.wsId = true <;>
        simp [kickLoop, h1, h2, ih, List.filter_cons, Nat.add_assoc, Nat.add_comm]
    · simp [kickLoop, h1, ih, List.filter_cons]

/-! ### Claim theorems -/

/-- C4: a connection targeting a room name that, after trim/lowercase
normalization, is not in the Room Directory is accepted, receives exactly
one system envelope saying the room does not exist, and is closed; the
server state is untouched, so no ConnectionEntry and no bucket is ever
created for it. -/
theorem C4_unknown_room_rejected (ok : Nat → Bool) (st : SrvState)
    (roomRaw : String) (wsId : Nat) (hok : ok wsId = true)
    (hne : room_exists st.rooms_db (normName roomRaw) = false) :
    websocket_connect ok st roomRaw wsId =
      (st,
        [.sent wsId (.env "system"
            ("Room " ++ sq ++ normName roomRaw ++ sq ++ " does not exist")),
          .closed wsId],
        false) := by
  unfold websocket_connect
  simp [hne, hok, sendText]

/-- Witness for C4: connecting socket 7 to the unknown room Nowhere. -/
theorem C4_witness :
    ((fun _ => true : Nat → Bool) 7 = true ∧
      room_exists (["lobby"] : List String) (normName " Nowhere ") = false) ∧
    websocket_connect (fun _ => true) ⟨["lobby"], []⟩ " Nowhere " 7 =
      (⟨["lobby"], []⟩,
        [.sent 7 (.env "system"
            ("Room " ++ sq ++ normName " Nowhere " ++ sq ++ " does not exist")),
          .closed 7],
        false) :=
  ⟨⟨rfl, by decide⟩,
    C4_unknown_room_rejected (fun _ => true) ⟨["lobby"], []⟩ " Nowhere " 7 rfl (by decide)⟩

/-- C3: broadcasting a plain chat message attempts delivery to exactly the
entries present in the room list at broadcast time, one attempt each,
independently of which sends fail; the state is unchanged and the issuer's
loop continues (no failure propagates to the sender). -/
theorem C3_fanout_isolation (cfg : Config) (ok : Nat → Bool) (st : SrvState)
    (room : String) (self : Entry) (username rawText : String)
    (ht : pyStrip rawText ≠ "") (hgt : pyStartsGt (pyStrip rawText) = false) :
    processData cfg ok st room self (.msg username rawText) =
      ⟨st, self,
        (st.active_rooms.getList room).map (fun e =>
          sendText ok e.wsId
            (.env (pyOrS (optS self.user) (pyOrS username "anon")) (pyStrip rawText))),
        .cont⟩ ∧
    ∀ e ∈ st.active_rooms.getList room,
      sendText ok e.wsId
          (.env (pyOrS (optS self.user) (pyOrS username "anon")) (pyStrip rawText)) ∈
        (processData cfg ok st room self (.msg username rawText)).events := by
  have h1 : processData cfg ok st room self (.msg username rawText) =
      ⟨st, self,
        (st.active_rooms.getList room).map (fun e =>
          sendText ok e.wsId
            (.env (pyOrS (optS self.user) (pyOrS username "anon")) (pyStrip rawText))),
        .cont⟩ := by
    unfold processData handleChat
    simp [ht, hgt]
  refine ⟨h1, fun e he => ?_⟩
  rw [h1]
  exact List.mem_map_of_mem _ he

/-- Witness for C3: a three-member room in which socket 2 rejects sends;
every member still gets exactly one attempt. -/
theorem C3_witness :
    (pyStrip " hello " ≠ "" ∧ pyStartsGt (pyStrip " hello ") = false) ∧
    (processData ⟨none, none⟩ (fun i => !(i == 2))
        ⟨["lobby"], [("lobby",
          [⟨1, some "a", false⟩, ⟨2, some "b", false⟩, ⟨3, none, false⟩])]⟩
        "lobby" ⟨1, some "a", false⟩ (.msg "zz" " hello ") =
      ⟨⟨["lobby"], [("lobby",
          [⟨1, some "a", false⟩, ⟨2, some "b", false⟩, ⟨3, none, false⟩])]⟩,
        ⟨1, some "a", false⟩,
        (([⟨1, some "a", false⟩, ⟨2, some "b", false⟩, ⟨3, none, false⟩] :
            List Entry).map (fun e =>
          sendText (fun i => !(i == 2)) e.wsId
            (.env (pyOrS (optS (some "a")) (pyOrS "zz" "anon")) (pyStrip " hello ")))),
        .cont⟩ ∧
      ∀ e ∈ Registry.getList ([("lobby",
          [⟨1, some "a", false⟩, ⟨2, some "b", false⟩, ⟨3, none, false⟩])] :
            Registry) "lobby",
        sendText (fun i => !(i == 2)) e.wsId
            (.env (pyOrS (optS (some "a")) (pyOrS "zz" "anon")) (pyStrip " hello ")) ∈
          (processData ⟨none, none⟩ (fun i => !(i == 2))
            ⟨["lobby"], [("lobby",
              [⟨1, some "a", false⟩, ⟨2, some "b", false⟩, ⟨3, none, false⟩])]⟩
            "lobby" ⟨1, some "a", false⟩ (.msg "zz" " hello ")).events) :=
  ⟨⟨by decide, by decide⟩,
    C3_fanout_isolation ⟨none, none⟩ (fun i => !(i == 2))
      ⟨["lobby"], [("lobby",
        [⟨1, some "a", false⟩, ⟨2, some "b", false⟩, ⟨3, none, false⟩])]⟩
      "lobby" ⟨1, some "a", false⟩ "zz" " hello " (by decide) (by decide)⟩

lemma credsMatch_of_absent (cfg : Config) (u p : String)
    (h : cfg.ADMIN_USERNAME = none ∨ cfg.ADMIN_PASSWORD = none) :
    credsMatch cfg u p = false := by
  rcases h with h | h <;> simp [credsMatch, h, pyTruthy, optS]

/-- C8: when either configured admin credential is absent, any login
command carrying a two-token argument pair is answered with the
invalid-credentials reply, and neither the entry (in particular its
is_admin flag) nor the server state changes. -/
theorem C8_login_disabled (cfg : Config) (ok : Nat → Bool) (st : SrvState)
    (room : String) (self : Entry) (arg rest : String)
    (hcfg : cfg.ADMIN_USERNAME = none ∨ cfg.ADMIN_PASSWORD = none)
    (hsplit : (splitOnce arg).2 = some rest)
    (hok : ok self.wsId = true) :
    handleLogin cfg ok st room self arg =
      ⟨st, self, [.sent self.wsId (.env "system" "Invalid admin credentials")],
        .cont⟩ := by
  unfold handleLogin
  dsimp only
  rw [hsplit]
  simp [credsMatch_of_absent cfg _ _ hcfg, hok]

/-- C2 counterexample: alice is active in lobby while socket 2 is the sole
occupant of den; socket 2 joins as Alice and is rejected by the global
username conflict, which removes its entry — yet den is still a key of the
registry and its bucket is empty, so the removal on the conflict path does
not delete the emptied bucket. -/
theorem C2_counterexample :
    Registry.hasRoom (processData ⟨none, none⟩ (fun _ => true)
        ⟨["lobby", "den"],
          [("lobby", [⟨1, some "alice", false⟩]), ("den", [⟨2, none, false⟩])]⟩
        "den" ⟨2, none, false⟩ (.join "Alice")).st.active_rooms "den" = true ∧
    Registry.getList (processData ⟨none, none⟩ (fun _ => true)
        ⟨["lobby", "den"],
          [("lobby", [⟨1, some "alice", false⟩]), ("den", [⟨2, none, false⟩])]⟩
        "den" ⟨2, none, false⟩ (.join "Alice")).st.active_rooms "den" = [] := by
  decide

/-- C2 amended: only the disconnect handler deletes an emptied bucket:
after disconnect processing the room's key remains exactly when entries
remain, while the entry removals of the conflict, warn-failure and kick
paths (all instances of Registry.removeEntry) never remove a room key, so
an empty bucket persists until a disconnect event for that room. -/
theorem C2_bucket_cleanup_amended (st : SrvState) (room : String) (wsId : Nat)
    (hr : st.active_rooms.hasRoom room = true) :
    ((websocket_disconnect st room wsId).active_rooms.hasRoom room = true ↔
      removeAllWs (st.active_rooms.getList room) wsId ≠ []) ∧
    ∀ (reg : Registry) (r2 : String) (id : Nat) (r : String),
      (reg.removeEntry r2 id).hasRoom r = reg.hasRoom r := by
  constructor
  · unfold websocket_disconnect
    dsimp only
    rw [if_pos hr]
    have hg : (st.active_rooms.modifyBucket room
        (fun l => removeAllWs l wsId)).getList room =
        removeAllWs (st.active_rooms.getList room) wsId :=
      getList_modifyBucket_self _ _ _ hr
    by_cases hempty : removeAllWs (st.active_rooms.getList room) wsId = []
    · rw [if_pos (by rw [hg, hempty])]
      simp [hasRoom_eraseRoom_self, hempty]
    · rw [if_neg (by rw [hg]; exact hempty)]
      simp [hasRoom_modifyBucket, hr, hempty]
  · intro reg r2 id r
    exact hasRoom_modifyBucket reg r2 r _

/-- Witness for C2 amended: disconnecting the only member of lobby removes
the lobby bucket. -/
theorem C2_witness :
    Registry.hasRoom ([("lobby", [⟨1, some "a", false⟩])] : Registry) "lobby" = true ∧
    (((websocket_disconnect ⟨["lobby"], [("lobby", [⟨1, some "a", false⟩])]⟩
          "lobby" 1).active_rooms.hasRoom "lobby" = true ↔
        removeAllWs (Registry.getList
          ([("lobby", [⟨1, some "a", false⟩])] : Registry) "lobby") 1 ≠ []) ∧
      ∀ (reg : Registry) (r2 : String) (id : Nat) (r : String),
        (reg.removeEntry r2 id).hasRoom r = reg.hasRoom r) :=
  ⟨by decide,
    C2_bucket_cleanup_amended ⟨["lobby"], [("lobby", [⟨1, some "a", false⟩])]⟩
      "lobby" 1 (by decide)⟩

/-- Witness for C8: ADMIN_USERNAME unset, login root pw fails and grants
nothing. -/
theorem C8_witness :
    ((⟨none, some "pw"⟩ : Config).ADMIN_USERNAME = none ∨
        (⟨none, some "pw"⟩ : Config).ADMIN_PASSWORD = none) ∧
    (splitOnce "root pw").2 = some "pw" ∧
    handleLogin ⟨none, some "pw"⟩ (fun _ => true)
        ⟨["lobby"], [("lobby", [⟨1, none, false⟩])]⟩ "lobby" ⟨1, none, false⟩
        "root pw" =
      ⟨⟨["lobby"], [("lobby", [⟨1, none, false⟩])]⟩, ⟨1, none, false⟩,
        [.sent 1 (.env "system" "Invalid admin credentials")], .cont⟩ :=
  ⟨Or.inl rfl, by decide,
    C8_login_disabled ⟨none, some "pw"⟩ (fun _ => true)
      ⟨["lobby"], [("lobby", [⟨1, none, false⟩])]⟩ "lobby" ⟨1, none, false⟩
      "root pw" "pw" (Or.inl rfl) (by decide) rfl⟩

/-- C5 counterexample: lobby holds the admin boss (socket 1) and mallory
(socket 2); socket 2 rejects sends. The admin issues warn mallory behave.
Exactly one entry matches the target, mallory is closed and removed, but
the confirmation reports zero and no room-wide announcement is broadcast,
refuting announcement-iff-at-least-one-match. -/
theorem C5_counterexample :
    ((Registry.getList ([("lobby",
          [⟨1, some "boss", true⟩, ⟨2, some "mallory", false⟩])] : Registry)
        "lobby").filter
      (fun e => targetMatches (pyLower "mallory") e)).length = 1 ∧
    (processData ⟨some "root", some "pw"⟩ (fun i => !(i == 2))
        ⟨["lobby"], [("lobby", [⟨1, some "boss", true⟩, ⟨2, some "mallory", false⟩])]⟩
        "lobby" ⟨1, some "boss", true⟩ (.msg "" ">warn mallory behave")).events =
      [.sendFailed 2 (.env "system" "WARNING: behave"), .closed 2,
        .sent 1 (.userList [("boss", true)]),
        .sent 1 (.env "system" "Warned 0 connection(s) for mallory.")] ∧
    ∀ ev ∈ (processData ⟨some "root", some "pw"⟩ (fun i => !(i == 2))
        ⟨["lobby"], [("lobby", [⟨1, some "boss", true⟩, ⟨2, some "mallory", false⟩])]⟩
        "lobby" ⟨1, some "boss", true⟩ (.msg "" ">warn mallory behave")).events,
      eventMsg ev ≠ some (.env "boss" "Admin warned mallory: behave") := by
  decide

/-- C5 amended: an admin warn with a non-empty target sends the WARNING
privately to every case-insensitively matching entry of the room; a
matching recipient whose send fails is closed and removed; the
confirmation counts only the successfully warned connections, and the
room-wide announcement naming the target is broadcast if and only if at
least one matching recipient was successfully sent the warning. -/
theorem C5_warn_amended (cfg : Config) (ok : Nat → Bool) (st : SrvState)
    (room : String) (self : Entry) (arg target tn wmsg : String)
    (snapshot matchedOk : List Entry) (regAfter : Registry)
    (htarget : target = pyStrip (splitOnce arg).1)
    (ht : target ≠ "")
    (htn : tn = pyLower target)
    (hw : wmsg = warnMsgOf arg)
    (hsnap : snapshot = st.active_rooms.getList room)
    (hmok : matchedOk = snapshot.filter (fun e => targetMatches tn e && ok e.wsId))
    (hreg : regAfter = (snapshot.filter
        (fun e => targetMatches tn e && !ok e.wsId)).foldl
        (fun r e => r.removeEntry room e.wsId) st.active_rooms)
    (hok : ok self.wsId = true) :
    handleWarn cfg ok st room self arg =
      ⟨{ st with active_rooms := regAfter }, self,
        snapshot.flatMap (fun e =>
          if targetMatches tn e then
            if ok e.wsId then
              [OutEvent.sent e.wsId (.env "system" ("WARNING: " ++ wmsg))]
            else
              [OutEvent.sendFailed e.wsId (.env "system" ("WARNING: " ++ wmsg)),
                .closed e.wsId]
          else []) ++
        broadcast_user_list ok regAfter room ++
        OutEvent.sent self.wsId (.env "system"
          ("Warned " ++ Nat.repr matchedOk.length ++ " connection(s) for " ++
            target ++ ".")) ::
        (if matchedOk.length ≠ 0 then
          (Registry.getList regAfter room).map (fun e =>
            sendText ok e.wsId (.env (annUserOf cfg self)
              ("Admin warned " ++ target ++ ": " ++ wmsg)))
        else []),
        .cont⟩ := by
  subst htarget htn hw hsnap hmok hreg
  unfold handleWarn
  dsimp only
  rw [if_neg ht, warnLoop_spec]
  simp [hok]

/-- Witness for C5 amended: boss warns mallory while mallory's socket
rejects sends; one match, zero successes, no announcement block. -/
theorem C5_witness :
    (pyStrip (splitOnce "mallory behave").1 = pyStrip (splitOnce "mallory behave").1 ∧
      pyStrip (splitOnce "mallory behave").1 ≠ "" ∧
      (fun i => !(i == 2) : Nat → Bool) 1 = true) ∧
    handleWarn ⟨some "root", some "pw"⟩ (fun i => !(i == 2))
        ⟨["lobby"], [("lobby", [⟨1, some "boss", true⟩, ⟨2, some "mallory", false⟩])]⟩
        "lobby" ⟨1, some "boss", true⟩ "mallory behave" =
      ⟨{ rooms_db := ["lobby"],
          active_rooms := ((Registry.getList ([("lobby",
              [⟨1, some "boss", true⟩, ⟨2, some "mallory", false⟩])] : Registry)
            "lobby").filter
              (fun e => targetMatches (pyLower (pyStrip (splitOnce "mallory behave").1)) e &&
                !(fun i => !(i == 2) : Nat → Bool) e.wsId)).foldl
            (fun r e => r.removeEntry "lobby" e.wsId)
            ([("lobby", [⟨1, some "boss", true⟩, ⟨2, some "mallory", false⟩])] : Registry) },
        ⟨1, some "boss", true⟩,
        (Registry.getList ([("lobby",
            [⟨1, some "boss", true⟩, ⟨2, some "mallory", false⟩])] : Registry)
          "lobby").flatMap (fun e =>
          if targetMatches (pyLower (pyStrip (splitOnce "mallory behave").1)) e then
            if (fun i => !(i == 2) : Nat → Bool) e.wsId then
              [OutEvent.sent e.wsId (.env "system"
                ("WARNING: " ++ warnMsgOf "mallory behave"))]
            else
              [OutEvent.sendFailed e.wsId (.env "system"
                ("WARNING: " ++ warnMsgOf "mallory behave")), .closed e.wsId]
          else []) ++
        broadcast_user_list (fun i => !(i == 2))
          (((Registry.getList ([("lobby",
              [⟨1, some "boss", true⟩, ⟨2, some "mallory", false⟩])] : Registry)
            "lobby").filter
              (fun e => targetMatches (pyLower (pyStrip (splitOnce "mallory behave").1)) e &&
                !(fun i => !(i == 2) : Nat → Bool) e.wsId)).foldl
            (fun r e => r.removeEntry "lobby" e.wsId)
            ([("lobby", [⟨1, some "boss", true⟩, ⟨2, some "mallory", false⟩])] : Registry))
          "lobby" ++
        OutEvent.sent 1 (.env "system"
          ("Warned " ++ Nat.repr ((Registry.getList ([("lobby",
              [⟨1, some "boss", true⟩, ⟨2, some "mallory", false⟩])] : Registry)
            "lobby").filter
              (fun e => targetMatches (pyLower (pyStrip (splitOnce "mallory behave").1)) e &&
                (fun i => !(i == 2) : Nat → Bool) e.wsId)).length ++
            " connection(s) for " ++ pyStrip (splitOnce "mallory behave").1 ++ ".")) ::
        (if ((Registry.getList ([("lobby",
              [⟨1, some "boss", true⟩, ⟨2, some "mallory", false⟩])] : Registry)
            "lobby").filter
              (fun e => targetMatches (pyLower (pyStrip (splitOnce "mallory behave").1)) e &&
                (fun i => !(i == 2) : Nat → Bool) e.wsId)).length ≠ 0 then
          (Registry.getList (((Registry.getList ([("lobby",
              [⟨1, some "boss", true⟩, ⟨2, some "mallory", false⟩])] : Registry)
            "lobby").filter
              (fun e => targetMatches (pyLower (pyStrip (splitOnce "mallory behave").1)) e &&
                !(fun i => !(i == 2) : Nat → Bool) e.wsId)).foldl
            (fun r e => r.removeEntry "lobby" e.wsId)
            ([("lobby", [⟨1, some "boss", true⟩, ⟨2, some "mallory", false⟩])] : Registry))
            "lobby").map (fun e =>
            sendText (fun i => !(i == 2)) e.wsId (.env
              (annUserOf ⟨some "root", some "pw"⟩ ⟨1, some "boss", true⟩)
              ("Admin warned " ++ pyStrip (splitOnce "mallory behave").1 ++ ": " ++
                warnMsgOf "mallory behave")))
        else []),
        .cont⟩ :=
  ⟨⟨rfl, by decide, rfl⟩,
    C5_warn_amended ⟨some "root", some "pw"⟩ (fun i => !(i == 2))
      ⟨["lobby"], [("lobby", [⟨1, some "boss", true⟩, ⟨2, some "mallory", false⟩])]⟩
      "lobby" ⟨1, some "boss", true⟩ "mallory behave" _ _ _ _ _ _
      rfl (by decide) rfl rfl rfl rfl rfl rfl⟩

/-- C6 counterexample: the non-admin bob issues the unknown command
frobnicate and receives the Unauthorized reply, not the Unknown-command
reply, refuting unknown-command-reply-regardless-of-admin-status. -/
theorem C6_counterexample :
    processData ⟨some "root", some "pw"⟩ (fun _ => true)
        ⟨["lobby"], [("lobby", [⟨1, some "bob", false⟩])]⟩
        "lobby" ⟨1, some "bob", false⟩ (.msg "" ">frobnicate") =
      ⟨⟨["lobby"], [("lobby", [⟨1, some "bob", false⟩])]⟩, ⟨1, some "bob", false⟩,
        [.sent 1 (.env "system" "Unauthorized: admin only command")], .cont⟩ ∧
    ∀ ev ∈ (processData ⟨some "root", some "pw"⟩ (fun _ => true)
        ⟨["lobby"], [("lobby", [⟨1, some "bob", false⟩])]⟩
        "lobby" ⟨1, some "bob", false⟩ (.msg "" ">frobnicate")).events,
      eventMsg ev ≠ some (.env "system" "Unknown command: frobnicate") := by
  decide

/-- C6 amended: a non-admin issuing any non-login command, known or
unknown, receives the Unauthorized reply and nothing else happens; the
Unknown-command reply is produced exactly for admin issuers whose command
token is none of login, create, warn, kick, again with no other effect. -/
theorem C6_unknown_command_amended (cfg : Config) (ok : Nat → Bool)
    (st : SrvState) (room : String) (self : Entry) (text cmd : String)
    (hbody : pyStrip (pyDropFirst text) ≠ "")
    (hcmd : cmd = pyLower (splitOnce (pyStrip (pyDropFirst text))).1)
    (hok : ok self.wsId = true) :
    (self.is_admin = false → cmd ≠ "login" →
      dispatchCommand cfg ok st room self text =
        ⟨st, self,
          [.sent self.wsId (.env "system" "Unauthorized: admin only command")],
          .cont⟩) ∧
    (self.is_admin = true → cmd ∉ (["login", "create", "warn", "kick"] : List String) →
      dispatchCommand cfg ok st room self text =
        ⟨st, self, [.sent self.wsId (.env "system" ("Unknown command: " ++ cmd))],
          .cont⟩) := by
  subst hcmd
  constructor
  · intro hadm hlog
    unfold dispatchCommand
    dsimp only
    rw [if_neg hbody, if_neg hlog, if_pos hadm, if_pos hok]
  · intro hadm hmem
    simp only [List.mem_cons, List.not_mem_nil, or_false, not_or] at hmem
    obtain ⟨h1, h2, h3, h4⟩ := hmem
    unfold dispatchCommand
    dsimp only
    rw [if_neg hbody, if_neg h1, if_neg (by simp [hadm]), if_neg h2, if_neg h3,
      if_neg h4, if_pos hok]

/-- Witness for C6 amended: bob (non-admin) gets Unauthorized for
frobnicate; boss (admin) gets the Unknown-command reply for it. -/
theorem C6_witness :
    (pyStrip (pyDropFirst ">frobnicate") ≠ "" ∧
      ("frobnicate" : String) = pyLower (splitOnce (pyStrip (pyDropFirst ">frobnicate"))).1 ∧
      (fun _ => true : Nat → Bool) 1 = true) ∧
    ((Entry.is_admin ⟨1, some "bob", false⟩ = false → ("frobnicate" : String) ≠ "login" →
      dispatchCommand ⟨some "root", some "pw"⟩ (fun _ => true)
          ⟨["lobby"], [("lobby", [⟨1, some "bob", false⟩])]⟩
          "lobby" ⟨1, some "bob", false⟩ ">frobnicate" =
        ⟨⟨["lobby"], [("lobby", [⟨1, some "bob", false⟩])]⟩, ⟨1, some "bob", false⟩,
          [.sent 1 (.env "system" "Unauthorized: admin only command")], .cont⟩) ∧
    (Entry.is_admin ⟨1, some "bob", false⟩ = true →
      ("frobnicate" : String) ∉ (["login", "create", "warn", "kick"] : List String) →
      dispatchCommand ⟨some "root", some "pw"⟩ (fun _ => true)
          ⟨["lobby"], [("lobby", [⟨1, some "bob", false⟩])]⟩
          "lobby" ⟨1, some "bob", false⟩ ">frobnicate" =
        ⟨⟨["lobby"], [("lobby", [⟨1, some "bob", false⟩])]⟩, ⟨1, some "bob", false⟩,
          [.sent 1 (.env "system" ("Unknown command: " ++ "frobnicate"))], .cont⟩)) :=
  ⟨⟨by decide, by decide, rfl⟩,
    C6_unknown_command_amended ⟨some "root", some "pw"⟩ (fun _ => true)
      ⟨["lobby"], [("lobby", [⟨1, some "bob", false⟩])]⟩
      "lobby" ⟨1, some "bob", false⟩ ">frobnicate" "frobnicate"
      (by decide) (by decide) rfl⟩

/-- C1: every endpoint interaction (connect, any received frame processed
for any session, disconnect) preserves the invariant that no two
ConnectionEntries across all rooms hold case-insensitively equal
usernames; moreover a join whose (trimmed) candidate name is already held
by any active entry in any room is answered with the private conflict
envelope, has its entry removed from the registry, and has its connection
closed, so of two joiners with equal names at most the first succeeds. -/
theorem C1_global_username_uniqueness (cfg : Config) (ok : Nat → Bool)
    (st : SrvState) (op : Op) (h : NoDupUsers st.active_rooms) :
    NoDupUsers (step cfg ok st op).active_rooms ∧
    ∀ (room : String) (self : Entry) (rawUser : String),
      optS self.user = "" → pyStrip rawUser ≠ "" →
      conflictScan st.active_rooms (pyLower (pyStrip (pyStrip rawUser))) = true →
      processData cfg ok st room self (.join rawUser) =
        ⟨{ st with active_rooms := st.active_rooms.removeEntry room self.wsId },
          self,
          [sendText ok self.wsId (.env "system"
              ("Username " ++ sq ++ pyStrip rawUser ++ sq ++ " is already in use")),
            .closed self.wsId],
          .closedSelf⟩ := by
  constructor
  · cases op with
    | connect roomRaw wsId => exact noDup_websocket_connect ok st roomRaw wsId h
    | recv room self data => exact noDup_processData cfg ok st room self data h
    | disconnect room wsId => exact noDup_websocket_disconnect st room wsId h
  · intro room self rawUser hu hraw hscan
    unfold processData handleJoin
    dsimp only
    rw [if_pos ⟨hraw, hu⟩, if_pos hscan]

/-- Witness for C1: alice is named in lobby; a disconnect event for den
preserves the invariant, and socket 2 joining den as ALICE is rejected,
removed and closed. -/
theorem C1_witness :
    NoDupUsers ([("lobby", [⟨1, some "alice", false⟩]), ("den", [⟨2, none, false⟩])] :
      Registry) ∧
    (NoDupUsers (step ⟨none, none⟩ (fun _ => true)
        ⟨["lobby", "den"],
          [("lobby", [⟨1, some "alice", false⟩]), ("den", [⟨2, none, false⟩])]⟩
        (.disconnect "den" 2)).active_rooms ∧
      ∀ (room : String) (self : Entry) (rawUser : String),
        optS self.user = "" → pyStrip rawUser ≠ "" →
        conflictScan ([("lobby", [⟨1, some "alice", false⟩]), ("den", [⟨2, none, false⟩])] :
          Registry) (pyLower (pyStrip (pyStrip rawUser))) = true →
        processData ⟨none, none⟩ (fun _ => true)
            ⟨["lobby", "den"],
              [("lobby", [⟨1, some "alice", false⟩]), ("den", [⟨2, none, false⟩])]⟩
            room self (.join rawUser) =
          ⟨{ rooms_db := ["lobby", "den"],
              active_rooms := Registry.removeEntry
                ([("lobby", [⟨1, some "alice", false⟩]), ("den", [⟨2, none, false⟩])] :
                  Registry) room self.wsId },
            self,
            [sendText (fun _ => true) self.wsId (.env "system"
                ("Username " ++ sq ++ pyStrip rawUser ++ sq ++ " is already in use")),
              .closed self.wsId],
            .closedSelf⟩) :=
  ⟨by decide,
    C1_global_username_uniqueness ⟨none, none⟩ (fun _ => true)
      ⟨["lobby", "den"],
        [("lobby", [⟨1, some "alice", false⟩]), ("den", [⟨2, none, false⟩])]⟩
      (.disconnect "den" 2) (by decide)⟩

/-- C7: after an admin kick whose target matches exactly one connection in
the room (and the involved sends succeed), that connection is absent from
the room's active set, it was sent the KICK envelope and closed, the
admin got the count confirmation, the room-wide announcement naming target
and reason went to every remaining entry, and the presence list was
rebroadcast to the remaining entries. -/
theorem C7_kick_postcondition (cfg : Config) (ok : Nat → Bool) (st : SrvState)
    (room : String) (self : Entry) (arg target reason : String) (e : Entry)
    (regAfter : Registry)
    (htarget : target = pyStrip (splitOnce arg).1)
    (ht : target ≠ "")
    (hreason : reason = kickReasonOf arg)
    (hone : (st.active_rooms.getList room).filter
        (fun x => targetMatches (pyLower target) x) = [e])
    (hnd : ((st.active_rooms.getList room).map Entry.wsId).Nodup)
    (hregAfter : regAfter = st.active_rooms.removeEntry room e.wsId)
    (hoke : ok e.wsId = true) (hoks : ok self.wsId = true) :
    (handleKick cfg ok st room self arg).st.active_rooms = regAfter ∧
    (handleKick cfg ok st room self arg).outcome = .cont ∧
    (∀ x ∈ Registry.getList regAfter room, x.wsId ≠ e.wsId) ∧
    OutEvent.sent e.wsId (.env "system" ("KICK: " ++ reason)) ∈
      (handleKick cfg ok st room self arg).events ∧
    OutEvent.closed e.wsId ∈ (handleKick cfg ok st room self arg).events ∧
    OutEvent.sent self.wsId (.env "system"
        ("Kicked " ++ Nat.repr 1 ++ " connection(s) for " ++ target ++ ".")) ∈
      (handleKick cfg ok st room self arg).events ∧
    (∀ m ∈ Registry.getList regAfter room,
      sendText ok m.wsId (.env (annUserOf cfg self)
          (target ++ " was kicked by admin (" ++ reason ++ ")")) ∈
        (handleKick cfg ok st room self arg).events) ∧
    (∀ m ∈ Registry.getList regAfter room,
      sendText ok m.wsId (.userList (userListUsers (Registry.getList regAfter room))) ∈
        (handleKick cfg ok st room self arg).events) := by
  subst htarget hreason hregAfter
  have hmem : e ∈ (st.active_rooms.getList room).filter
      (fun x => targetMatches (pyLower (pyStrip (splitOnce arg).1)) x) := by
    rw [hone]; exact List.mem_singleton_self e
  have hesnap : e ∈ st.active_rooms.getList room := (List.mem_filter.mp hmem).1
  have hematch : targetMatches (pyLower (pyStrip (splitOnce arg).1)) e = true :=
    (List.mem_filter.mp hmem).2
  have hhasRoom : st.active_rooms.hasRoom room = true :=
    hasRoom_of_getList_ne_nil _ _ (fun hnil => by rw [hnil] at hesnap; simp at hesnap)
  have hglist : Registry.getList (st.active_rooms.removeEntry room e.wsId) room =
      removeFirstWs (st.active_rooms.getList room) e.wsId :=
    getList_modifyBucket_self _ _ _ hhasRoom
  have heq : handleKick cfg ok st room self arg =
      ⟨{ st with active_rooms := st.active_rooms.removeEntry room e.wsId }, self,
        (st.active_rooms.getList room).flatMap (fun x =>
          if targetMatches (pyLower (pyStrip (splitOnce arg).1)) x then
            if ok x.wsId then
              [OutEvent.sent x.wsId (.env "system" ("KICK: " ++ kickReasonOf arg)),
                .closed x.wsId]
            else
              [OutEvent.sendFailed x.wsId (.env "system" ("KICK: " ++ kickReasonOf arg)),
                .closed x.wsId]
          else []) ++
        OutEvent.sent self.wsId (.env "system"
          ("Kicked " ++ Nat.repr 1 ++ " connection(s) for " ++
            pyStrip (splitOnce arg).1 ++ ".")) ::
        ((Registry.getList (st.active_rooms.removeEntry room e.wsId) room).map (fun x =>
          sendText ok x.wsId (.env (annUserOf cfg self)
            (pyStrip (splitOnce arg).1 ++ " was kicked by admin (" ++
              kickReasonOf arg ++ ")"))) ++
          broadcast_user_list ok (st.active_rooms.removeEntry room e.wsId) room),
        .cont⟩ := by
    unfold handleKick
    dsimp only
    rw [if_neg ht, kickLoop_spec, hone]
    simp [hoks]
  refine ⟨by rw [heq], by rw [heq], ?_, ?_, ?_, ?_, ?_, ?_⟩
  · rw [hglist]
    exact not_mem_wsId_removeFirstWs _ _ hnd
  · rw [heq]
    refine List.mem_append_left _ (List.mem_flatMap.mpr ⟨e, hesnap, ?_⟩)
    simp [hematch, hoke]
  · rw [heq]
    refine List.mem_append_left _ (List.mem_flatMap.mpr ⟨e, hesnap, ?_⟩)
    simp [hematch, hoke]
  · rw [heq]
    exact List.mem_append_right _ (List.mem_cons_self _ _)
  · intro m hm
    rw [heq]
    refine List.mem_append_right _ (List.mem_cons_of_mem _ ?_)
    exact List.mem_append_left _ (List.mem_map_of_mem _ hm)
  · intro m hm
    rw [heq]
    refine List.mem_append_right _ (List.mem_cons_of_mem _ ?_)
    refine List.mem_append_right _ ?_
    unfold broadcast_user_list
    exact List.mem_map_of_mem _ hm

/-- Witness for C7: boss kicks eve (the only match) from lobby. -/
theorem C7_witness :
    (("eve" : String) = pyStrip (splitOnce "eve spamming").1 ∧
      ("eve" : String) ≠ "" ∧
      ("spamming" : String) = kickReasonOf "eve spamming" ∧
      (Registry.getList ([("lobby",
          [⟨1, some "boss", true⟩, ⟨2, some "eve", false⟩])] : Registry)
        "lobby").filter (fun x => targetMatches (pyLower "eve") x) =
        [⟨2, some "eve", false⟩] ∧
      ((Registry.getList ([("lobby",
          [⟨1, some "boss", true⟩, ⟨2, some "eve", false⟩])] : Registry)
        "lobby").map Entry.wsId).Nodup) ∧
    ((handleKick ⟨none, none⟩ (fun _ => true)
        ⟨["lobby"], [("lobby", [⟨1, some "boss", true⟩, ⟨2, some "eve", false⟩])]⟩
        "lobby" ⟨1, some "boss", true⟩ "eve spamming").st.active_rooms =
      Registry.removeEntry ([("lobby",
        [⟨1, some "boss", true⟩, ⟨2, some "eve", false⟩])] : Registry) "lobby" 2 ∧
    (handleKick ⟨none, none⟩ (fun _ => true)
        ⟨["lobby"], [("lobby", [⟨1, some "boss", true⟩, ⟨2, some "eve", false⟩])]⟩
        "lobby" ⟨1, some "boss", true⟩ "eve spamming").outcome = .cont ∧
    (∀ x ∈ Registry.getList (Registry.removeEntry ([("lobby",
        [⟨1, some "boss", true⟩, ⟨2, some "eve", false⟩])] : Registry) "lobby" 2)
        "lobby", x.wsId ≠ 2) ∧
    OutEvent.sent 2 (.env "system" ("KICK: " ++ "spamming")) ∈
      (handleKick ⟨none, none⟩ (fun _ => true)
        ⟨["lobby"], [("lobby", [⟨1, some "boss", true⟩, ⟨2, some "eve", false⟩])]⟩
        "lobby" ⟨1, some "boss", true⟩ "eve spamming").events ∧
    OutEvent.closed 2 ∈
      (handleKick ⟨none, none⟩ (fun _ => true)
        ⟨["lobby"], [("lobby", [⟨1, some "boss", true⟩, ⟨2, some "eve", false⟩])]⟩
        "lobby" ⟨1, some "boss", true⟩ "eve spamming").events ∧
    OutEvent.sent 1 (.env "system"
        ("Kicked " ++ Nat.repr 1 ++ " connection(s) for " ++ "eve" ++ ".")) ∈
      (handleKick ⟨none, none⟩ (fun _ => true)
        ⟨["lobby"], [("lobby", [⟨1, some "boss", true⟩, ⟨2, some "eve", false⟩])]⟩
        "lobby" ⟨1, some "boss", true⟩ "eve spamming").events ∧
    (∀ m ∈ Registry.getList (Registry.removeEntry ([("lobby",
        [⟨1, some "boss", true⟩, ⟨2, some "eve", false⟩])] : Registry) "lobby" 2)
        "lobby",
      sendText (fun _ => true) m.wsId (.env
          (annUserOf ⟨none, none⟩ ⟨1, some "boss", true⟩)
          ("eve" ++ " was kicked by admin (" ++ "spamming" ++ ")")) ∈
        (handleKick ⟨none, none⟩ (fun _ => true)
          ⟨["lobby"], [("lobby", [⟨1, some "boss", true⟩, ⟨2, some "eve", false⟩])]⟩
          "lobby" ⟨1, some "boss", true⟩ "eve spamming").events) ∧
    (∀ m ∈ Registry.getList (Registry.removeEntry ([("lobby",
        [⟨1, some "boss", true⟩, ⟨2, some "eve", false⟩])] : Registry) "lobby" 2)
        "lobby",
      sendText (fun _ => true) m.wsId (.userList (userListUsers
          (Registry.getList (Registry.removeEntry ([("lobby",
            [⟨1, some "boss", true⟩, ⟨2, some "eve", false⟩])] : Registry)
            "lobby" 2) "lobby"))) ∈
        (handleKick ⟨none, none⟩ (fun _ => true)
          ⟨["lobby"], [("lobby", [⟨1, some "boss", true⟩, ⟨2, some "eve", false⟩])]⟩
          "lobby" ⟨1, some "boss", true⟩ "eve spamming").events)) :=
  ⟨⟨by decide, by decide, by decide, by decide, by decide⟩,
    C7_kick_postcondition ⟨none, none⟩ (fun _ => true)
      ⟨["lobby"], [("lobby", [⟨1, some "boss", true⟩, ⟨2, some "eve", false⟩])]⟩
      "lobby" ⟨1, some "boss", true⟩ "eve spamming" "eve" "spamming"
      ⟨2, some "eve", false⟩ _
      (by decide) (by decide) (by decide) (by decide) (by decide) rfl rfl rfl⟩

lemma handleCreate_self_eq (cfg : Config) (ok : Nat → Bool) (st : SrvState)
    (room : String) (self : Entry) (arg : String) :
    (handleCreate cfg ok st room self arg).self = self := by
  unfold handleCreate
  dsimp only
  split
  · split <;> rfl
  · split <;> rfl

lemma handleWarn_self_eq (cfg : Config) (ok : Nat → Bool) (st : SrvState)
    (room : String) (self : Entry) (arg : String) :
    (handleWarn cfg ok st room self arg).self = self := by
  unfold handleWarn
  dsimp only
  split
  · split <;> rfl
  · split <;> rfl

lemma handleKick_self_eq (cfg : Config) (ok : Nat → Bool) (st : SrvState)
    (room : String) (self : Entry) (arg : String) :
    (handleKick cfg ok st room self arg).self = self := by
  unfold handleKick
  dsimp only
  split
  · split <;> rfl
  · split <;> rfl

lemma handleLogin_self_user (cfg : Config) (ok : Nat → Bool) (st : SrvState)
    (room : String) (self : Entry) (arg : String) :
    (handleLogin cfg ok st room self arg).self.user = self.user := by
  unfold handleLogin
  dsimp only
  split
  · split <;> rfl
  · split
    · split <;> rfl
    · split <;> rfl

lemma handleLogin_admin_mono (cfg : Config) (ok : Nat → Bool) (st : SrvState)
    (room : String) (self : Entry) (arg : String) (h : self.is_admin = true) :
    (handleLogin cfg ok st room self arg).self.is_admin = true := by
  unfold handleLogin
  dsimp only
  split
  · split <;> exact h
  · split
    · split <;> rfl
    · split <;> exact h

lemma handleLogin_admin_rev (cfg : Config) (ok : Nat → Bool) (st : SrvState)
    (room : String) (self : Entry) (arg : String)
    (h : (handleLogin cfg ok st room self arg).self.is_admin = true) :
    self.is_admin = true ∨
      ∃ rest, (splitOnce arg).2 = some rest ∧
        credsMatch cfg (pyStrip (splitOnce arg).1) (pyStrip rest) = true := by
  revert h
  unfold handleLogin
  dsimp only
  split
  next heq => intro h; split at h <;> exact Or.inl h
  next rest heq =>
    split
    next hcm => intro h; exact Or.inr ⟨rest, heq, hcm⟩
    next hcm => intro h; split at h <;> exact Or.inl h

lemma handleJoin_self_admin (ok : Nat → Bool) (st : SrvState) (room : String)
    (self : Entry) (raw : String) :
    (handleJoin ok st room self raw).self.is_admin = self.is_admin := by
  unfold handleJoin
  dsimp only
  split
  · split <;> rfl
  · rfl

lemma dispatchCommand_self_user (cfg : Config) (ok : Nat → Bool) (st : SrvState)
    (room : String) (self : Entry) (text : String) :
    (dispatchCommand cfg ok st room self text).self.user = self.user := by
  unfold dispatchCommand
  dsimp only
  split
  · split <;> rfl
  · split
    · exact handleLogin_self_user cfg ok st room self _
    · split
      · split <;> rfl
      · split
        · rw [handleCreate_self_eq]
        · split
          · rw [handleWarn_self_eq]
          · split
            · rw [handleKick_self_eq]
            · split <;> rfl

lemma dispatchCommand_admin_mono (cfg : Config) (ok : Nat → Bool) (st : SrvState)
    (room : String) (self : Entry) (text : String) (h : self.is_admin = true) :
    (dispatchCommand cfg ok st room self text).self.is_admin = true := by
  unfold dispatchCommand
  dsimp only
  split
  · split <;> exact h
  · split
    · exact handleLogin_admin_mono cfg ok st room self _ h
    · split
      · split <;> exact h
      · split
        · rw [handleCreate_self_eq]; exact h
        · split
          · rw [handleWarn_self_eq]; exact h
          · split
            · rw [handleKick_self_eq]; exact h
            · split <;> exact h

lemma dispatchCommand_admin_rev (cfg : Config) (ok : Nat → Bool) (st : SrvState)
    (room : String) (self : Entry) (text : String)
    (h : (dispatchCommand cfg ok st room self text).self.is_admin = true) :
    self.is_admin = true ∨
      ∃ up : String × String, loginTokens text = some up ∧
        credsMatch cfg up.1 up.2 = true := by
  revert h
  unfold dispatchCommand
  dsimp only
  split
  next hbody => intro h; split at h <;> exact Or.inl h
  next hbody =>
    split
    next hlogin =>
      intro h
      rcases handleLogin_admin_rev cfg ok st room self _ h with h2 | ⟨rest, heq, hcm⟩
      · exact Or.inl h2
      · refine Or.inr ⟨(pyStrip (splitOnce (cmdArg (pyStrip (pyDropFirst text)))).1,
          pyStrip rest), ?_, hcm⟩
        unfold loginTokens
        dsimp only
        rw [if_neg hbody, if_pos hlogin, heq]
    next hlogin =>
      split
      · intro h; split at h <;> exact Or.inl h
      · split
        · intro h; rw [handleCreate_self_eq] at h; exact Or.inl h
        · split
          · intro h; rw [handleWarn_self_eq] at h; exact Or.inl h
          · split
            · intro h; rw [handleKick_self_eq] at h; exact Or.inl h
            · intro h; split at h <;> exact Or.inl h

/-- C9: in one loop iteration for any session, a set username is never
changed (a join arriving after the username is set leaves it untouched),
the is_admin flag never goes back from true to false, and it becomes true
only through a login command whose two stripped tokens exactly match the
configured, present credential pair. -/
theorem C9_once_only_mutation (cfg : Config) (ok : Nat → Bool) (st : SrvState)
    (room : String) (self : Entry) (data : Envelope) :
    (optS self.user ≠ "" →
      (processData cfg ok st room self data).self.user = self.user) ∧
    (self.is_admin = true →
      (processData cfg ok st room self data).self.is_admin = true) ∧
    ((processData cfg ok st room self data).self.is_admin = true →
      self.is_admin = true ∨
      ∃ u t : String, data = Envelope.msg u t ∧
        ∃ up : String × String, loginTokens (pyStrip t) = some up ∧
          credsMatch cfg up.1 up.2 = true) := by
  refine ⟨?_, ?_, ?_⟩
  · intro hu
    cases data with
    | malformed => rfl
    | join raw =>
      show (handleJoin ok st room self raw).self.user = self.user
      unfold handleJoin
      dsimp only
      rw [if_neg (fun hc => hu hc.2)]
    | msg u t =>
      unfold processData
      dsimp only
      split
      · rfl
      · split
        · exact dispatchCommand_self_user cfg ok st room self _
        · rfl
  · intro hadm
    cases data with
    | malformed => exact hadm
    | join raw =>
      show (handleJoin ok st room self raw).self.is_admin = true
      rw [handleJoin_self_admin]
      exact hadm
    | msg u t =>
      unfold processData
      dsimp only
      split
      · exact hadm
      · split
        · exact dispatchCommand_admin_mono cfg ok st room self _ hadm
        · exact hadm
  · intro h
    cases data with
    | malformed => exact Or.inl h
    | join raw =>
      have h2 : (handleJoin ok st room self raw).self.is_admin = true := h
      rw [handleJoin_self_admin] at h2
      exact Or.inl h2
    | msg u t =>
      unfold processData at h
      dsimp only at h
      split at h
      · exact Or.inl h
      · split at h
        · rcases dispatchCommand_admin_rev cfg ok st room self _ h with h2 | ⟨up, hl, hc⟩
          · exact Or.inl h2
          · exact Or.inr ⟨u, t, rfl, up, hl, hc⟩
        · exact Or.inl h

/-- Witness for C9: the named user al keeps the name across a further join
envelope, a fresh login with the right credentials yields admin only via
the matching token pair, and an admin stays admin across a chat. -/
theorem C9_witness :
    (optS (some "al") ≠ "" ∧
      (processData ⟨some "root", some "pw"⟩ (fun _ => true)
        ⟨["lobby"], [("lobby", [⟨1, some "al", false⟩])]⟩
        "lobby" ⟨1, some "al", false⟩ (.join "bob")).self.user = some "al") ∧
    ((processData ⟨some "root", some "pw"⟩ (fun _ => true)
        ⟨["lobby"], [("lobby", [⟨1, some "al", false⟩])]⟩
        "lobby" ⟨1, some "al", false⟩ (.msg "" ">login root pw")).self.is_admin = true →
      Entry.is_admin ⟨1, some "al", false⟩ = true ∨
      ∃ u t : String, Envelope.msg "" ">login root pw" = Envelope.msg u t ∧
        ∃ up : String × String, loginTokens (pyStrip t) = some up ∧
          credsMatch ⟨some "root", some "pw"⟩ up.1 up.2 = true) :=
  ⟨⟨by decide,
      (C9_once_only_mutation ⟨some "root", some "pw"⟩ (fun _ => true)
        ⟨["lobby"], [("lobby", [⟨1, some "al", false⟩])]⟩
        "lobby" ⟨1, some "al", false⟩ (.join "bob")).1 (by decide)⟩,
    (C9_once_only_mutation ⟨some "root", some "pw"⟩ (fun _ => true)
      ⟨["lobby"], [("lobby", [⟨1, some "al", false⟩])]⟩
      "lobby" ⟨1, some "al", false⟩ (.msg "" ">login root pw")).2.2⟩

/-- C10: every warn an admin issues with a non-empty target token — also
one matching zero entries — has its event stream contain a full
presence-list rebroadcast to the room (broadcast_user_list over the
post-warn registry) placed before the count confirmation sent to the
issuer. -/
theorem C10_warn_presence_rebroadcast (cfg : Config) (ok : Nat → Bool)
    (st : SrvState) (room : String) (self : Entry) (text : String)
    (hbody : pyStrip (pyDropFirst text) ≠ "")
    (hcmd : pyLower (splitOnce (pyStrip (pyDropFirst text))).1 = "warn")
    (hadm : self.is_admin = true)
    (ht : pyStrip (splitOnce (cmdArg (pyStrip (pyDropFirst text)))).1 ≠ "")
    (hok : ok self.wsId = true) :
    ∃ (evPre : List OutEvent) (n : Nat) (evPost : List OutEvent),
      (dispatchCommand cfg ok st room self text).events =
        evPre ++
        broadcast_user_list ok
          (dispatchCommand cfg ok st room self text).st.active_rooms room ++
        OutEvent.sent self.wsId (.env "system"
          ("Warned " ++ Nat.repr n ++ " connection(s) for " ++
            pyStrip (splitOnce (cmdArg (pyStrip (pyDropFirst text)))).1 ++ ".")) ::
        evPost := by
  have hd : dispatchCommand cfg ok st room self text =
      handleWarn cfg ok st room self (cmdArg (pyStrip (pyDropFirst text))) := by
    unfold dispatchCommand
    dsimp only
    rw [if_neg hbody, if_neg (by rw [hcmd]; decide),
      if_neg (by rw [hadm]; decide), if_neg (by rw [hcmd]; decide), if_pos hcmd]
  rw [hd]
  unfold handleWarn
  dsimp only
  rw [if_neg ht]
  rw [if_pos hok]
  exact ⟨_, _, _, rfl⟩

/-- Witness for C10: boss warns the absent ghost; zero matches, yet the
presence list is rebroadcast before the Warned 0 confirmation. -/
theorem C10_witness :
    (pyStrip (pyDropFirst ">warn ghost boo") ≠ "" ∧
      pyLower (splitOnce (pyStrip (pyDropFirst ">warn ghost boo"))).1 = "warn" ∧
      Entry.is_admin ⟨1, some "boss", true⟩ = true ∧
      pyStrip (splitOnce (cmdArg (pyStrip (pyDropFirst ">warn ghost boo")))).1 ≠ "" ∧
      (fun _ => true : Nat → Bool) 1 = true) ∧
    ∃ (evPre : List OutEvent) (n : Nat) (evPost : List OutEvent),
      (dispatchCommand ⟨none, none⟩ (fun _ => true)
          ⟨["lobby"], [("lobby", [⟨1, some "boss", true⟩])]⟩
          "lobby" ⟨1, some "boss", true⟩ ">warn ghost boo").events =
        evPre ++
        broadcast_user_list (fun _ => true)
          (dispatchCommand ⟨none, none⟩ (fun _ => true)
            ⟨["lobby"], [("lobby", [⟨1, some "boss", true⟩])]⟩
            "lobby" ⟨1, some "boss", true⟩ ">warn ghost boo").st.active_rooms
          "lobby" ++
        OutEvent.sent 1 (.env "system"
          ("Warned " ++ Nat.repr n ++ " connection(s) for " ++
            pyStrip (splitOnce (cmdArg (pyStrip (pyDropFirst ">warn ghost boo")))).1 ++
            ".")) ::
        evPost :=
  ⟨⟨by decide, by decide, rfl, by decide, rfl⟩,
    C10_warn_presence_rebroadcast ⟨none, none⟩ (fun _ => true)
      ⟨["lobby"], [("lobby", [⟨1, some "boss", true⟩])]⟩
      "lobby" ⟨1, some "boss", true⟩ ">warn ghost boo"
      (by decide) (by decide) rfl (by decide) rfl⟩

end Talkity
